import Mathlib

/-!
Verification of the ML Pipeline Builder backend (src/backend/app/main.py).

The backend is a FastAPI app holding one global mutable `session_state`
dict.  We embed the state machine shallowly:

* A `DataFrame` is a list of named columns; a column's data is either
  numeric (pandas int64/float64, which are the dtypes satisfying
  `np.issubdtype(dtype, np.number)`), bool, or object (strings).  Numeric
  cells are exact rationals with `none` standing for NaN/missing; the
  session never holds infinities because `/upload` (main.py line 136)
  normalizes ±inf to NaN before storing anything.
* Every numerical library call (pandas parsing, sklearn scalers,
  `train_test_split`, `model.fit`, prediction/metrics/plotting) is an
  external collaborator; it is passed in as an explicit oracle argument
  (a result value or a function), so theorems quantify over all possible
  collaborator behaviours.
* Each endpoint becomes a pure function `SessionState → … → SessionState
  × Except ApiErr Unit`, returning the *pre* state on every failure path,
  mirroring the source where every `raise` occurs before the block of
  `session_state[…] = …` mutations.
-/

/-- Data of one pandas column.  `numeric` covers dtypes int64/float64
(the dtypes with `np.issubdtype(dtype, np.number)` true); `boolcol` is
dtype bool; `objcol` is dtype object (strings, `none` = NaN). -/
inductive ColVals where
  | numeric : List (Option ℚ) → ColVals
  | boolcol : List Bool → ColVals
  | objcol : List (Option String) → ColVals
deriving DecidableEq, Repr

/-- A named column of a pandas DataFrame. -/
structure Column where
  name : String
  vals : ColVals
deriving DecidableEq, Repr

/-- A pandas DataFrame: ordered named columns. -/
structure DataFrame where
  cols : List Column
deriving DecidableEq, Repr

/-- Number of non-missing-agnostic entries in a column. -/
def ColVals.length : ColVals → Nat
  | .numeric v => v.length
  | .boolcol v => v.length
  | .objcol v => v.length

/-- `df.columns.tolist()`. -/
def dfColNames (df : DataFrame) : List String :=
  df.cols.map (fun c => c.name)

/-- `len(df.columns)`. -/
def dfNCols (df : DataFrame) : Nat :=
  df.cols.length

/-- `len(df)`: the row count (length of the columns; 0 when there are no
columns). -/
def dfRows (df : DataFrame) : Nat :=
  match df.cols with
  | [] => 0
  | c :: _ => c.vals.length

/-- pandas `df.empty`: true when either axis has length 0. -/
def dfEmpty (df : DataFrame) : Bool :=
  dfRows df = 0 || dfNCols df = 0

/-- `df[name]`: first column with the given name. -/
def lookupCol (df : DataFrame) (name : String) : Option Column :=
  df.cols.find? (fun c => c.name = name)

/-- `df.drop(columns=[name])`. -/
def dropColumn (df : DataFrame) (name : String) : DataFrame :=
  ⟨df.cols.filter (fun c => c.name ≠ name)⟩

/-- `np.issubdtype(dtype, np.number)`: true for int64/float64, false for
bool and object (main.py line 212 uses exactly this test). -/
def isNumericVals : ColVals → Bool
  | .numeric _ => true
  | .boolcol _ => false
  | .objcol _ => false

/-- Number of distinct values of a column, `len(series.unique())`
(NaN counts as a value, as in pandas). -/
def distinctCount : ColVals → Nat
  | .numeric v => v.dedup.length
  | .boolcol v => v.dedup.length
  | .objcol v => v.dedup.length

/-- Index of the first occurrence of `v` (length of the list when
absent). -/
def idxOf (v : String) : List String → Nat
  | [] => 0
  | w :: ws => if w = v then 0 else idxOf v ws + 1

/-- One pass of `pd.factorize`: `seen` is the list of distinct values
already encountered, in first-seen order; NaN (`none`) codes to -1. -/
def factorizeAux : List (Option String) → List String → List Int
  | [], _ => []
  | none :: rest, seen => (-1) :: factorizeAux rest seen
  | some v :: rest, seen =>
      if v ∈ seen then (idxOf v seen : Int) :: factorizeAux rest seen
      else (seen.length : Int) :: factorizeAux rest (seen ++ [v])

/-- `pd.factorize(series)[0]` as an int64 column (codes as rationals). -/
def factorizeCodes (vs : List (Option String)) : List (Option ℚ) :=
  (factorizeAux vs []).map (fun z => some (Int.cast z))

/-- The distinct-value list accumulated by a left-to-right scan, i.e. the
distinct non-missing values of the column in first-seen order (appended
after the initial `seen`). -/
def seenAfter : List (Option String) → List String → List String
  | [], seen => seen
  | none :: rest, seen => seenAfter rest seen
  | some v :: rest, seen =>
      if v ∈ seen then seenAfter rest seen
      else seenAfter rest (seen ++ [v])

/-- The distinct non-missing values of a column in first-seen order. -/
def firstSeenValues (vs : List (Option String)) : List String :=
  seenAfter vs []

/-- The loop body of main.py lines 300-302: a column is factorized iff
its dtype is object (`X_encoded[col].dtype == 'object'`). -/
def encodeColumn (c : Column) : Column :=
  match c.vals with
  | .objcol vs => { c with vals := .numeric (factorizeCodes vs) }
  | _ => c

/-- main.py lines 299-302: `X_encoded = X.copy()` then factorize every
object column in place. -/
def encodeFeatures (X : DataFrame) : DataFrame :=
  ⟨X.cols.map encodeColumn⟩

/-- `df[cols] = scaler.fit_transform(df[cols])` where the scaler
(StandardScaler or MinMaxScaler) is the external collaborator `fn`,
acting column-wise as both sklearn scalers do. -/
def applyScale (fn : List (Option ℚ) → List (Option ℚ))
    (sel : List String) (df : DataFrame) : DataFrame :=
  ⟨df.cols.map (fun c =>
    if c.name ∈ sel then
      match c.vals with
      | .numeric v => { c with vals := .numeric (fn v) }
      | _ => c
    else c)⟩

/-- Request body of `POST /preprocess`. -/
structure PreprocessRequest where
  columns : List String
  method : String
deriving DecidableEq, Repr

/-- Request body of `POST /split`. -/
structure SplitRequest where
  target_column : String
  test_size : ℚ
  random_state : Int
deriving DecidableEq, Repr

/-- Request body of `POST /train`. -/
structure TrainRequest where
  model_type : String
deriving DecidableEq, Repr

/-- The spec's error taxonomy (§7): all are surfaced as HTTP 400, but the
kind distinguishes bad input, missing predecessor stage, and rewrapped
library failures. -/
inductive ApiErr where
  | validation : String → ApiErr
  | precondition : String → ApiErr
  | operation : String → ApiErr
deriving DecidableEq, Repr

deriving instance DecidableEq for Except

/-- True exactly on a `ValidationError` outcome. -/
def isValidationErr : Except ApiErr Unit → Bool
  | .error (.validation _) => true
  | _ => false

/-- The opaque fitted-model handle: `model.fit(X_train, y_train)` keeps a
reference to nothing but its own parameters, so we record the model kind
and the training data it was fitted on. -/
structure FittedModel where
  kind : String
  fitX : DataFrame
  fitY : Column
deriving DecidableEq, Repr

/-- The global `session_state` dict of main.py lines 39-51, field for
field. -/
structure SessionState where
  original_df : Option DataFrame
  processed_df : Option DataFrame
  X_train : Option DataFrame
  X_test : Option DataFrame
  y_train : Option Column
  y_test : Option Column
  target_column : Option String
  feature_columns : Option (List String)
  model : Option FittedModel
  model_name : Option String
  transformations_applied : List String
deriving DecidableEq, Repr

/-- The state at process start and after `POST /reset`. -/
def initialState : SessionState :=
  { original_df := none
    processed_df := none
    X_train := none
    X_test := none
    y_train := none
    y_test := none
    target_column := none
    feature_columns := none
    model := none
    model_name := none
    transformations_applied := [] }

/-- ASCII lowercasing of one character, as Python `str.lower` does on
ASCII filenames. -/
def lowerChar (c : Char) : Char :=
  if 65 ≤ c.toNat ∧ c.toNat ≤ 90 then Char.ofNat (c.toNat + 32) else c

/-- Python `filename.lower()`. -/
def strToLower (s : String) : String := ⟨s.data.map lowerChar⟩

/-- Python `str.endswith`. -/
def strEndsWith (s suf : String) : Bool :=
  decide (suf.data.length ≤ s.data.length) &&
    decide (s.data.drop (s.data.length - suf.data.length) = suf.data)

/-- A single quote character, for rendering Python list literals. -/
def pyQuote : String := (Char.ofNat 39).toString

/-- Python `str(list_of_strings)`. -/
def pyRepr (xs : List String) : String :=
  "[" ++ String.intercalate ", " (xs.map (fun x => pyQuote ++ x ++ pyQuote)) ++ "]"

/-- The extension check of main.py line 110, applied to
`file.filename.lower()`. -/
def uploadExtOk (filename : String) : Bool :=
  strEndsWith (strToLower filename) ".csv" ||
    strEndsWith (strToLower filename) ".xlsx" ||
    strEndsWith (strToLower filename) ".xls"

/-- Whether a column contains a missing entry (pandas NaN).  Bool
columns cannot hold NaN; an object column's missing cells are float NaN
in pandas, so they too make the column "missing-bearing". -/
def hasMissing : ColVals → Bool
  | .numeric v => v.any (fun c => c.isNone)
  | .boolcol _ => false
  | .objcol v => v.any (fun c => c.isNone)

/-- The block of session writes performed by upload once parsing and
validation have passed (main.py lines 139-148), before the response is
rendered. -/
def uploadWrittenState (s : SessionState) (df : DataFrame) : SessionState :=
  { s with
      original_df := some df
      processed_df := some df
      transformations_applied := []
      X_train := none
      X_test := none
      y_train := none
      y_test := none
      model := none }

/-- `POST /upload` (main.py lines 101-169).  `parse` is the external
pandas parser (`pd.read_csv` / `pd.read_excel`), already composed with
the ±inf → NaN normalization of line 136.  `render` is the JSON
marshalling of the success response (main.py lines 153-164): it runs
inside the `try` AFTER the session writes of lines 139-148, so a render
failure (possible for payload values outside the modelled dtype
universe, e.g. Excel datetime cells) returns an error while the writes
persist.  Within the modelled universe the preview is NaN-safe
(`df_to_json` replaces NaN by None), so `render` is an oracle rather
than a computed check. -/
def upload_dataset (s : SessionState) (filename : String)
    (parse : Except String DataFrame) (render : Except String Unit) :
    SessionState × Except ApiErr Unit :=
  if ¬ uploadExtOk filename then
    (s, .error (.validation
      "Invalid file type. Please upload a CSV or Excel file (.csv, .xlsx, .xls)"))
  else
    match parse with
    | .error e => (s, .error (.operation ("Error processing file: " ++ e)))
    | .ok df =>
      if dfEmpty df then
        (s, .error (.validation "The uploaded file is empty"))
      else if dfNCols df < 2 then
        (s, .error (.validation
          "Dataset must have at least 2 columns (features + target)"))
      else
        match render with
        | .error e =>
          (uploadWrittenState s df,
            .error (.operation ("Error processing file: " ++ e)))
        | .ok _ => (uploadWrittenState s df, .ok ())

/-- `GET /dataset` (main.py lines 172-189): read-only. -/
def get_dataset (s : SessionState) : SessionState × Except ApiErr Unit :=
  match s.processed_df with
  | none => (s, .error (.precondition
      "No dataset uploaded. Please upload a dataset first."))
  | some _ => (s, .ok ())

/-- The description appended to the transformation log on a successful
preprocess (main.py line 238). -/
def preprocessMsg (req : PreprocessRequest) : String :=
  let methodName :=
    if req.method = "standardize" then "StandardScaler (z-score normalization)"
    else "MinMaxScaler (0-1 normalization)"
  "Applied " ++ methodName ++ " to columns: " ++ pyRepr req.columns

/-- The `invalid_cols` comprehension of main.py line 204. -/
def invalidColumns (df : DataFrame) (cols : List String) : List String :=
  cols.filter (fun c => ¬ c ∈ dfColNames df)

/-- The `non_numeric` comprehension of main.py line 212 (only evaluated
once every requested column exists). -/
def nonNumericColumns (df : DataFrame) (cols : List String) : List String :=
  cols.filter (fun c =>
    match lookupCol df c with
    | some col => ¬ isNumericVals col.vals
    | none => false)

/-- `POST /preprocess` (main.py lines 192-249).  `fn` is the per-column
numeric transform of the sklearn scaler selected by `req.method`.  The
`scaler.fit_transform` call at line 234 runs inside a try/except and can
raise: within the modelled value universe (finite rationals plus NaN —
the scalers accept NaN, and infinities are normalized away at upload)
it raises exactly when the selection `df[request.columns]` has zero
features, i.e. when `request.columns` is empty (sklearn `check_array`:
"Found array with 0 feature(s)"); a zero-row frame would also raise but
cannot coexist with a present working dataset, which upload guarantees
non-empty.  That failure occurs before the session writes of lines
237-239, so it leaves the state untouched. -/
def preprocess_data (s : SessionState) (req : PreprocessRequest)
    (fn : List (Option ℚ) → List (Option ℚ)) :
    SessionState × Except ApiErr Unit :=
  match s.processed_df with
  | none => (s, .error (.precondition
      "No dataset uploaded. Please upload a dataset first."))
  | some df =>
    if invalidColumns df req.columns ≠ [] then
      (s, .error (.validation
        ("Invalid columns: " ++ pyRepr (invalidColumns df req.columns))))
    else if nonNumericColumns df req.columns ≠ [] then
      (s, .error (.validation
        ("Columns must be numeric for transformation: " ++
          pyRepr (nonNumericColumns df req.columns))))
    else if req.method = "standardize" || req.method = "normalize" then
      if req.columns = [] then
        (s, .error (.operation
          "Error during preprocessing: Found array with 0 feature(s) while a minimum of 1 is required."))
      else
        ({ s with
            processed_df := some (applyScale fn req.columns df)
            transformations_applied :=
              s.transformations_applied ++ [preprocessMsg req] }, .ok ())
    else
      (s, .error (.validation
        "Invalid method. Use standardize or normalize"))

/-- `POST /reset-preprocessing` (main.py lines 252-265). -/
def reset_preprocessing (s : SessionState) :
    SessionState × Except ApiErr Unit :=
  match s.original_df with
  | none => (s, .error (.precondition "No dataset uploaded."))
  | some od =>
    ({ s with
        processed_df := some od
        transformations_applied := [] }, .ok ())

/-- The encoded feature table handed to `train_test_split`
(main.py lines 295-302): drop the target, factorize object columns. -/
def splitFeatureTable (df : DataFrame) (target : String) : DataFrame :=
  encodeFeatures (dropColumn df target)

/-- The type of the external `train_test_split` collaborator: given the
encoded features, the label column, `test_size`, `random_state` and the
stratify flag, it either fails or yields (X_train, X_test, y_train,
y_test). -/
def PartitionFn : Type :=
  DataFrame → Column → ℚ → Int → Bool →
    Except String (DataFrame × DataFrame × Column × Column)

/-- `y = df[request.target_column]` (main.py line 296; the fallback arm
is unreachable because the target was just validated present). -/
def targetColumnOf (df : DataFrame) (t : String) : Column :=
  match lookupCol df t with
  | some c => c
  | none => ⟨t, .numeric []⟩

/-- The block of session writes performed by split once the partition
has succeeded (main.py lines 313-322), before the response is
rendered. -/
def splitWrittenState (s : SessionState) (req : SplitRequest)
    (df : DataFrame) (xtr xte : DataFrame) (ytr yte : Column) :
    SessionState :=
  { s with
      X_train := some xtr
      X_test := some xte
      y_train := some ytr
      y_test := some yte
      target_column := some req.target_column
      feature_columns := some (dfColNames (dropColumn df req.target_column))
      model := none
      model_name := none }

/-- `POST /split` (main.py lines 268-343).  `part` is the external
`train_test_split` collaborator.  The `return JSONResponse({...})` at
lines 327-340 sits inside the `try` AFTER the session writes of lines
313-322, and Starlette renders with `json.dumps(..., allow_nan=False)`:
the payload field `target_classes = y.unique().tolist()` contains a
float NaN exactly when the target column has a missing entry, in which
case the render raises, the `except` at line 342 rewraps it as a 400,
and the already-performed writes persist.  All other payload fields
(counts, ratios, column-name strings) are JSON-safe in the modelled
universe, so the render outcome is computed, not an oracle. -/
def split_data (s : SessionState) (req : SplitRequest) (part : PartitionFn) :
    SessionState × Except ApiErr Unit :=
  match s.processed_df with
  | none => (s, .error (.precondition
      "No dataset uploaded. Please upload a dataset first."))
  | some df =>
    if ¬ req.target_column ∈ dfColNames df then
      (s, .error (.validation
        ("Target column " ++ pyQuote ++ req.target_column ++ pyQuote ++ " not found.")))
    else if ¬ (mkRat 1 10 ≤ req.test_size ∧ req.test_size ≤ mkRat 1 2) then
      (s, .error (.validation
        "Test size must be between 0.1 (10%) and 0.5 (50%)"))
    else
      match part (splitFeatureTable df req.target_column)
          (targetColumnOf df req.target_column)
          req.test_size req.random_state
          (decide (distinctCount (targetColumnOf df req.target_column).vals > 1)) with
      | .error e => (s, .error (.operation ("Error during split: " ++ e)))
      | .ok (xtr, xte, ytr, yte) =>
        if hasMissing (targetColumnOf df req.target_column).vals then
          (splitWrittenState s req df xtr xte ytr yte,
            .error (.operation
              "Error during split: Out of range float values are not JSON compliant"))
        else
          (splitWrittenState s req df xtr xte ytr yte, .ok ())

/-- `POST /train` (main.py lines 346-395).  `fitRes` is the outcome of
the external `model.fit` call (it raises whenever `y_train` is absent,
and can raise on degenerate data). -/
def train_model (s : SessionState) (req : TrainRequest)
    (fitRes : Except String Unit) : SessionState × Except ApiErr Unit :=
  match s.X_train with
  | none => (s, .error (.precondition
      "Data not split. Please perform train-test split first."))
  | some xt =>
    if req.model_type = "logistic_regression" ∨ req.model_type = "decision_tree" then
      match s.y_train with
      | none => (s, .error (.operation "Error during training: y is None"))
      | some yt =>
        match fitRes with
        | .error e => (s, .error (.operation ("Error during training: " ++ e)))
        | .ok _ =>
          let mname :=
            if req.model_type = "logistic_regression" then "Logistic Regression"
            else "Decision Tree Classifier"
          ({ s with
              model := some ⟨req.model_type, xt, yt⟩
              model_name := some mname }, .ok ())
    else
      (s, .error (.validation
        "Invalid model type. Use logistic_regression or decision_tree"))

/-- `GET /results` (main.py lines 398-515): prediction, metrics and
plotting are all external (`evalRes`); the handler never writes
`session_state`. -/
def get_results (s : SessionState) (evalRes : Except String Unit) :
    SessionState × Except ApiErr Unit :=
  match s.model with
  | none => (s, .error (.precondition
      "No model trained. Please train a model first."))
  | some _ =>
    match evalRes with
    | .error e => (s, .error (.operation ("Error generating results: " ++ e)))
    | .ok _ => (s, .ok ())

/-- `POST /reset` (main.py lines 536-556). -/
def reset_pipeline (_ : SessionState) : SessionState × Except ApiErr Unit :=
  (initialState, .ok ())

/-- Response of `GET /pipeline-status` (main.py lines 518-533). -/
structure PipelineStatus where
  upload : Bool
  preprocess : Bool
  split : Bool
  train : Bool
  results : Bool
  dataset_rows : Nat
  transformations : List String
  model_name : Option String
  target_column : Option String
deriving DecidableEq, Repr

/-- `GET /pipeline-status` (main.py lines 518-533), field for field. -/
def get_pipeline_status (s : SessionState) : PipelineStatus :=
  { upload := s.original_df.isSome
    preprocess := decide (s.transformations_applied.length > 0)
    split := s.X_train.isSome
    train := s.model.isSome
    results := s.model.isSome
    dataset_rows := match s.original_df with
      | some df => dfRows df
      | none => 0
    transformations := s.transformations_applied
    model_name := s.model_name
    target_column := s.target_column }

/-- One call to a state-mutating endpoint, bundling the request payload
with the behaviour of the external collaborators invoked during it. -/
inductive OpCall where
  | upload (filename : String) (parse : Except String DataFrame)
      (render : Except String Unit)
  | describe
  | preprocess (req : PreprocessRequest)
      (fn : List (Option ℚ) → List (Option ℚ))
  | resetPrep
  | split (req : SplitRequest) (part : PartitionFn)
  | train (req : TrainRequest) (fitRes : Except String Unit)
  | evaluate (evalRes : Except String Unit)
  | resetAll

/-- Dispatch of one endpoint call on the session. -/
def runOp (s : SessionState) : OpCall → SessionState × Except ApiErr Unit
  | .upload filename parse render => upload_dataset s filename parse render
  | .describe => get_dataset s
  | .preprocess req fn => preprocess_data s req fn
  | .resetPrep => reset_preprocessing s
  | .split req part => split_data s req part
  | .train req fitRes => train_model s req fitRes
  | .evaluate evalRes => get_results s evalRes
  | .resetAll => reset_pipeline s

/-- Session states reachable from process start by any sequence of
endpoint calls, with arbitrary collaborator behaviour. -/
def Reachable (s : SessionState) : Prop :=
  Relation.ReflTransGen (fun a b => ∃ c, b = (runOp a c).1) initialState s

/-- Folding a sequence of endpoint calls over the session. -/
def applyCalls (s : SessionState) (cs : List OpCall) : SessionState :=
  cs.foldl (fun a c => (runOp a c).1) s

/-- Whether a call is a `POST /preprocess` call. -/
def isPreprocessCall : OpCall → Prop
  | .preprocess _ _ => True
  | _ => False

/-- The two state invariants the spec asserts about the split and the
model: the six split fields are populated together, and a stored model
was fitted on exactly the training data of the split currently in
place. -/
def sessionInv (s : SessionState) : Prop :=
  (s.X_train ≠ none →
    (s.X_test ≠ none ∧ s.y_train ≠ none ∧ s.y_test ≠ none ∧
     s.target_column ≠ none ∧ s.feature_columns ≠ none)) ∧
  (∀ m, s.model = some m →
    s.X_train = some m.fitX ∧ s.y_train = some m.fitY)

/-- Two session states agreeing on every split field and on the trained
model (handle and display name). -/
def agreesOnSplitAndModel (a b : SessionState) : Prop :=
  a.X_train = b.X_train ∧ a.X_test = b.X_test ∧
  a.y_train = b.y_train ∧ a.y_test = b.y_test ∧
  a.target_column = b.target_column ∧ a.feature_columns = b.feature_columns ∧
  a.model = b.model ∧ a.model_name = b.model_name

/-- Claim C1 as stated: the session state demanded after a successful
upload of a table parsing to `df` — both dataset snapshots hold `df`,
the transformation log is empty, and every split component, the model
handle and its display name are all cleared to `null`. -/
def claimC1Post (s : SessionState) (df : DataFrame) : Prop :=
  s.original_df = some df ∧ s.processed_df = some df ∧
  s.transformations_applied = [] ∧
  s.X_train = none ∧ s.X_test = none ∧ s.y_train = none ∧ s.y_test = none ∧
  s.target_column = none ∧ s.feature_columns = none ∧
  s.model = none ∧ s.model_name = none

/-- First-seen integer coding of a bool column, as the claimed encoding
of a non-numeric column would produce (True/False keyed by first
appearance). -/
def firstSeenBoolCodes (bs : List Bool) : List (Option ℚ) :=
  factorizeCodes (bs.map (fun b => some (if b then "True" else "False")))

/-- The conversion claim C6 demands of a single non-numeric column:
integer codes in first-seen order of its distinct values. -/
def firstSeenEncodeVals : ColVals → ColVals
  | .numeric v => .numeric v
  | .boolcol bs => .numeric (firstSeenBoolCodes bs)
  | .objcol vs => .numeric (factorizeCodes vs)

/-- Claim C6 as stated, at a feature table `X`: every non-numeric column
is converted to first-seen integer codes and every numeric column passes
through unchanged. -/
def claimC6Statement (X : DataFrame) : Prop :=
  encodeFeatures X =
    ⟨X.cols.map (fun c =>
      if isNumericVals c.vals then c
      else { c with vals := firstSeenEncodeVals c.vals })⟩

/-- A sample parsed table: one numeric feature and one object target. -/
def df1 : DataFrame :=
  ⟨[⟨"x", .numeric [some 1, some 2, some 3, some 4]⟩,
    ⟨"y", .objcol [some "a", some "b", some "a", some "b"]⟩]⟩

/-- Sample train-feature block produced by the partition collaborator. -/
def xtr1 : DataFrame := ⟨[⟨"x", .numeric [some 1, some 2, some 3]⟩]⟩

/-- Sample test-feature block produced by the partition collaborator. -/
def xte1 : DataFrame := ⟨[⟨"x", .numeric [some 4]⟩]⟩

/-- Sample train-label column produced by the partition collaborator. -/
def ytr1 : Column := ⟨"y", .objcol [some "a", some "b", some "a"]⟩

/-- Sample test-label column produced by the partition collaborator. -/
def yte1 : Column := ⟨"y", .objcol [some "b"]⟩

/-- A concrete partition collaborator returning the sample blocks. -/
def partConst : PartitionFn := fun _ _ _ _ _ => .ok (xtr1, xte1, ytr1, yte1)

/-- Session after uploading `df1` (render succeeds). -/
def s1def : SessionState :=
  (runOp initialState (.upload "data.csv" (.ok df1) (.ok ()))).1

/-- Session after then splitting on target `y` with `test_size = 0.2`. -/
def s2def : SessionState :=
  (runOp s1def (.split ⟨"y", mkRat 1 5, 42⟩ partConst)).1

/-- Session after then training a logistic-regression model. -/
def s3def : SessionState :=
  (runOp s2def (.train ⟨"logistic_regression"⟩ (.ok ()))).1

/-- A parsed table whose target column `t` is numeric and entirely
missing (a CSV column of empty cells parses to all-NaN float64):
`y.unique()` then has a single element, so the partition runs
unstratified and succeeds, and the response render hits the NaN. -/
def dfm : DataFrame :=
  ⟨[⟨"x", .numeric [some 1, some 2]⟩,
    ⟨"t", .numeric [none, none]⟩]⟩

/-- Concrete partition blocks for the all-missing-target table. -/
def xtrM : DataFrame := ⟨[⟨"x", .numeric [some 1]⟩]⟩

/-- Concrete test-feature block for the all-missing-target table. -/
def xteM : DataFrame := ⟨[⟨"x", .numeric [some 2]⟩]⟩

/-- Concrete train-label column for the all-missing-target table. -/
def ytrM : Column := ⟨"t", .numeric [none]⟩

/-- Concrete test-label column for the all-missing-target table. -/
def yteM : Column := ⟨"t", .numeric [none]⟩

/-- A concrete partition collaborator for the all-missing-target
table. -/
def partM : PartitionFn := fun _ _ _ _ _ => .ok (xtrM, xteM, ytrM, yteM)

/-- Session after uploading the all-missing-target table. -/
def sm1 : SessionState :=
  (runOp initialState (.upload "data.csv" (.ok dfm) (.ok ()))).1

/-! ## Frame lemmas for the individual endpoints -/

/-- Preprocessing writes only `processed_df` and the transformation log:
all other session fields are returned untouched on every path. -/
theorem preprocess_data_keeps (s : SessionState) (req : PreprocessRequest)
    (fn : List (Option ℚ) → List (Option ℚ)) :
    (preprocess_data s req fn).1.original_df = s.original_df ∧
    (preprocess_data s req fn).1.X_train = s.X_train ∧
    (preprocess_data s req fn).1.X_test = s.X_test ∧
    (preprocess_data s req fn).1.y_train = s.y_train ∧
    (preprocess_data s req fn).1.y_test = s.y_test ∧
    (preprocess_data s req fn).1.target_column = s.target_column ∧
    (preprocess_data s req fn).1.feature_columns = s.feature_columns ∧
    (preprocess_data s req fn).1.model = s.model ∧
    (preprocess_data s req fn).1.model_name = s.model_name := by
  unfold preprocess_data
  split
  · exact ⟨rfl, rfl, rfl, rfl, rfl, rfl, rfl, rfl, rfl⟩
  · split
    · exact ⟨rfl, rfl, rfl, rfl, rfl, rfl, rfl, rfl, rfl⟩
    · split
      · exact ⟨rfl, rfl, rfl, rfl, rfl, rfl, rfl, rfl, rfl⟩
      · split
        · split
          · exact ⟨rfl, rfl, rfl, rfl, rfl, rfl, rfl, rfl, rfl⟩
          · exact ⟨rfl, rfl, rfl, rfl, rfl, rfl, rfl, rfl, rfl⟩
        · exact ⟨rfl, rfl, rfl, rfl, rfl, rfl, rfl, rfl, rfl⟩

/-- Resetting the preprocessing writes only `processed_df` and the
transformation log. -/
theorem reset_preprocessing_keeps (s : SessionState) :
    (reset_preprocessing s).1.original_df = s.original_df ∧
    (reset_preprocessing s).1.X_train = s.X_train ∧
    (reset_preprocessing s).1.X_test = s.X_test ∧
    (reset_preprocessing s).1.y_train = s.y_train ∧
    (reset_preprocessing s).1.y_test = s.y_test ∧
    (reset_preprocessing s).1.target_column = s.target_column ∧
    (reset_preprocessing s).1.feature_columns = s.feature_columns ∧
    (reset_preprocessing s).1.model = s.model ∧
    (reset_preprocessing s).1.model_name = s.model_name := by
  unfold reset_preprocessing
  split
  · exact ⟨rfl, rfl, rfl, rfl, rfl, rfl, rfl, rfl, rfl⟩
  · exact ⟨rfl, rfl, rfl, rfl, rfl, rfl, rfl, rfl, rfl⟩

/-! ## Error atomicity of each endpoint -/

/-- A failed upload either leaves the session untouched (failure before
the writes of main.py lines 139-148) or — when only the response render
after those writes failed — leaves exactly the written state. -/
theorem upload_dataset_err_cases (s : SessionState) (filename : String)
    (parse : Except String DataFrame) (render : Except String Unit)
    (e : ApiErr)
    (h : (upload_dataset s filename parse render).2 = .error e) :
    (upload_dataset s filename parse render).1 = s ∨
    (∃ df, parse = .ok df ∧
      (upload_dataset s filename parse render).1 = uploadWrittenState s df ∧
      ∃ msg, render = .error msg) := by
  unfold upload_dataset at *
  revert h
  split
  · exact fun _ => Or.inl rfl
  · split
    · exact fun _ => Or.inl rfl
    · split
      · exact fun _ => Or.inl rfl
      · split
        · exact fun _ => Or.inl rfl
        · split
          · exact fun _ => Or.inr ⟨_, rfl, rfl, _, rfl⟩
          · exact fun h => Except.noConfusion h

/-- A failed describe leaves the session untouched. -/
theorem get_dataset_err (s : SessionState) (e : ApiErr)
    (h : (get_dataset s).2 = .error e) : (get_dataset s).1 = s := by
  unfold get_dataset at *
  revert h
  split
  · exact fun _ => rfl
  · exact fun h => Except.noConfusion h

/-- A failed preprocess leaves the session untouched. -/
theorem preprocess_data_err (s : SessionState) (req : PreprocessRequest)
    (fn : List (Option ℚ) → List (Option ℚ)) (e : ApiErr)
    (h : (preprocess_data s req fn).2 = .error e) :
    (preprocess_data s req fn).1 = s := by
  unfold preprocess_data at *
  revert h
  split
  · exact fun _ => rfl
  · split
    · exact fun _ => rfl
    · split
      · exact fun _ => rfl
      · split
        · split
          · exact fun _ => rfl
          · exact fun h => Except.noConfusion h
        · exact fun _ => rfl

/-- A failed preprocessing reset leaves the session untouched. -/
theorem reset_preprocessing_err (s : SessionState) (e : ApiErr)
    (h : (reset_preprocessing s).2 = .error e) :
    (reset_preprocessing s).1 = s := by
  unfold reset_preprocessing at *
  revert h
  split
  · exact fun _ => rfl
  · exact fun h => Except.noConfusion h

/-- A failed split either leaves the session untouched (failure before
the writes of main.py lines 313-322) or — when the partition succeeded
and only the NaN-bearing response render failed — leaves exactly the
written split state. -/
theorem split_data_err_cases (s : SessionState) (req : SplitRequest)
    (part : PartitionFn) (e : ApiErr)
    (h : (split_data s req part).2 = .error e) :
    (split_data s req part).1 = s ∨
    (∃ df xtr xte ytr yte, s.processed_df = some df ∧
      hasMissing (targetColumnOf df req.target_column).vals = true ∧
      (split_data s req part).1 = splitWrittenState s req df xtr xte ytr yte) := by
  unfold split_data at *
  revert h
  split
  · exact fun _ => Or.inl rfl
  · rename_i df hdf
    split
    · exact fun _ => Or.inl rfl
    · split
      · exact fun _ => Or.inl rfl
      · split
        · exact fun _ => Or.inl rfl
        · split
          · rename_i hmiss
            exact fun _ => Or.inr ⟨df, _, _, _, _, hdf, hmiss, rfl⟩
          · exact fun h => Except.noConfusion h

/-- A failed train leaves the session untouched. -/
theorem train_model_err (s : SessionState) (req : TrainRequest)
    (fitRes : Except String Unit) (e : ApiErr)
    (h : (train_model s req fitRes).2 = .error e) :
    (train_model s req fitRes).1 = s := by
  unfold train_model at *
  revert h
  split
  · exact fun _ => rfl
  · split
    · split
      · exact fun _ => rfl
      · split
        · exact fun _ => rfl
        · exact fun h => Except.noConfusion h
    · exact fun _ => rfl

/-- A failed evaluation leaves the session untouched (it never writes
state at all). -/
theorem get_results_err (s : SessionState) (evalRes : Except String Unit)
    (e : ApiErr) (h : (get_results s evalRes).2 = .error e) :
    (get_results s evalRes).1 = s := by
  unfold get_results at *
  revert h
  split
  · exact fun _ => rfl
  · split
    · exact fun _ => rfl
    · exact fun h => Except.noConfusion h

/-! ## Preservation of the session invariant -/

/-- The empty session satisfies the invariant. -/
theorem sessionInv_initial : sessionInv initialState := by
  constructor
  · intro hx
    exact absurd rfl hx
  · intro m hm
    exact Option.noConfusion hm

/-- Upload preserves the invariant (on success it clears the split and
the model handle). -/
theorem sessionInv_upload (s : SessionState) (filename : String)
    (parse : Except String DataFrame) (render : Except String Unit)
    (h : sessionInv s) :
    sessionInv (upload_dataset s filename parse render).1 := by
  unfold upload_dataset
  split
  · exact h
  · split
    · exact h
    · split
      · exact h
      · split
        · exact h
        · split
          · constructor
            · intro hx
              exact absurd rfl hx
            · intro m hm
              exact Option.noConfusion hm
          · constructor
            · intro hx
              exact absurd rfl hx
            · intro m hm
              exact Option.noConfusion hm

/-- Preprocessing preserves the invariant: it does not touch any field
the invariant mentions. -/
theorem sessionInv_preprocess (s : SessionState) (req : PreprocessRequest)
    (fn : List (Option ℚ) → List (Option ℚ)) (h : sessionInv s) :
    sessionInv (preprocess_data s req fn).1 := by
  obtain ⟨_, h2, h3, h4, h5, h6, h7, h8, _⟩ := preprocess_data_keeps s req fn
  unfold sessionInv at *
  rw [h2, h3, h4, h5, h6, h7, h8]
  exact h

/-- Resetting preprocessing preserves the invariant. -/
theorem sessionInv_resetPrep (s : SessionState) (h : sessionInv s) :
    sessionInv (reset_preprocessing s).1 := by
  obtain ⟨_, h2, h3, h4, h5, h6, h7, h8, _⟩ := reset_preprocessing_keeps s
  unfold sessionInv at *
  rw [h2, h3, h4, h5, h6, h7, h8]
  exact h

/-- Splitting preserves the invariant: on success it populates all six
split fields and clears the model. -/
theorem sessionInv_split (s : SessionState) (req : SplitRequest)
    (part : PartitionFn) (h : sessionInv s) :
    sessionInv (split_data s req part).1 := by
  unfold split_data
  split
  · exact h
  · split
    · exact h
    · split
      · exact h
      · split
        · exact h
        · split
          · constructor
            · intro _
              exact ⟨fun c => Option.noConfusion c, fun c => Option.noConfusion c,
                fun c => Option.noConfusion c, fun c => Option.noConfusion c,
                fun c => Option.noConfusion c⟩
            · intro m hm
              exact Option.noConfusion hm
          · constructor
            · intro _
              exact ⟨fun c => Option.noConfusion c, fun c => Option.noConfusion c,
                fun c => Option.noConfusion c, fun c => Option.noConfusion c,
                fun c => Option.noConfusion c⟩
            · intro m hm
              exact Option.noConfusion hm

/-- Training preserves the invariant: it only stores a model after
checking `X_train` and fitting on the current training data. -/
theorem sessionInv_train (s : SessionState) (req : TrainRequest)
    (fitRes : Except String Unit) (h : sessionInv s) :
    sessionInv (train_model s req fitRes).1 := by
  cases hxt : s.X_train with
  | none =>
    unfold train_model
    rw [hxt]
    exact h
  | some xt =>
    unfold train_model
    simp only [hxt]
    split
    · cases hyt : s.y_train with
      | none =>
        simp only [hyt]
        exact h
      | some yt =>
        simp only [hyt]
        cases fitRes with
        | error e => exact h
        | ok u =>
          dsimp only
          constructor
          · intro _
            have h5 := h.1 (by rw [hxt]; exact fun c => Option.noConfusion c)
            exact ⟨h5.1, fun c => Option.noConfusion c, h5.2.2.1,
              h5.2.2.2.1, h5.2.2.2.2⟩
          · intro m hm
            cases Option.some.inj hm
            exact ⟨rfl, rfl⟩
    · exact h

/-- Evaluation preserves the invariant (it never writes state). -/
theorem sessionInv_evaluate (s : SessionState) (evalRes : Except String Unit)
    (h : sessionInv s) : sessionInv (get_results s evalRes).1 := by
  unfold get_results
  split
  · exact h
  · split
    · exact h
    · exact h

/-- Describe preserves the invariant (it never writes state). -/
theorem sessionInv_describe (s : SessionState) (h : sessionInv s) :
    sessionInv (get_dataset s).1 := by
  unfold get_dataset
  split
  · exact h
  · exact h

/-- Every endpoint call preserves the invariant. -/
theorem sessionInv_step (s : SessionState) (c : OpCall) (h : sessionInv s) :
    sessionInv (runOp s c).1 := by
  cases c with
  | upload filename parse render => exact sessionInv_upload s filename parse render h
  | describe => exact sessionInv_describe s h
  | preprocess req fn => exact sessionInv_preprocess s req fn h
  | resetPrep => exact sessionInv_resetPrep s h
  | split req part => exact sessionInv_split s req part h
  | train req fitRes => exact sessionInv_train s req fitRes h
  | evaluate evalRes => exact sessionInv_evaluate s evalRes h
  | resetAll => exact sessionInv_initial

/-- The invariant holds in every reachable session state. -/
theorem sessionInv_reachable (s : SessionState) (h : Reachable s) :
    sessionInv s := by
  induction h with
  | refl => exact sessionInv_initial
  | tail hr hstep ih =>
    obtain ⟨c, rfl⟩ := hstep
    exact sessionInv_step _ c ih

/-! ## Characterization of the factorize encoding -/

/-- Factorizing preserves the column length. -/
theorem factorizeAux_length :
    ∀ (vs : List (Option String)) (seen : List String),
    (factorizeAux vs seen).length = vs.length
  | [], _ => rfl
  | none :: rest, seen => by
      simp [factorizeAux, factorizeAux_length rest seen]
  | some v :: rest, seen => by
      by_cases hv : v ∈ seen <;>
        simp [factorizeAux, hv, factorizeAux_length rest _]

/-- The index of a value already present is unchanged by appending. -/
theorem idxOf_append (v : String) (l t : List String) (h : v ∈ l) :
    idxOf v (l ++ t) = idxOf v l := by
  induction l with
  | nil => exact absurd h (List.not_mem_nil v)
  | cons w ws ih =>
    by_cases hw : w = v
    · simp [idxOf, hw]
    · have hv : v ∈ ws := by
        cases List.mem_cons.mp h with
        | inl hh => exact absurd hh.symm hw
        | inr hh => exact hh
      simp [idxOf, hw, ih hv]

/-- Appending a fresh value puts it at the old length. -/
theorem idxOf_append_self (v : String) (l : List String) (h : ¬ v ∈ l) :
    idxOf v (l ++ [v]) = l.length := by
  induction l with
  | nil => simp [idxOf]
  | cons w ws ih =>
    have hw : ¬ w = v := fun hc => h (hc ▸ List.mem_cons_self w ws)
    have hv : ¬ v ∈ ws := fun hc => h (List.mem_cons_of_mem w hc)
    simp [idxOf, hw, ih hv]

/-- Scanning only appends to the accumulated distinct-value list. -/
theorem seenAfter_extends :
    ∀ (vs : List (Option String)) (seen : List String),
    ∃ t, seenAfter vs seen = seen ++ t
  | [], seen => ⟨[], by simp [seenAfter]⟩
  | none :: rest, seen => seenAfter_extends rest seen
  | some v :: rest, seen => by
      by_cases hv : v ∈ seen
      · obtain ⟨t, ht⟩ := seenAfter_extends rest seen
        exact ⟨t, by simp [seenAfter, hv, ht]⟩
      · obtain ⟨t, ht⟩ := seenAfter_extends rest (seen ++ [v])
        exact ⟨[v] ++ t, by simp [seenAfter, hv, ht]⟩

/-- The final index of a value already seen equals its current index. -/
theorem idxOf_seenAfter (v : String) (vs : List (Option String))
    (seen : List String) (h : v ∈ seen) :
    idxOf v (seenAfter vs seen) = idxOf v seen := by
  obtain ⟨t, ht⟩ := seenAfter_extends vs seen
  rw [ht]
  exact idxOf_append v seen t h

/-- Every factorize code is determined by the final first-seen
distinct-value list: missing values code to -1, a value codes to its
index in the first-seen order. -/
theorem factorizeAux_spec :
    ∀ (vs : List (Option String)) (seen : List String) (i : Nat),
    i < vs.length →
    (factorizeAux vs seen).getD i 0 =
      (match vs.getD i none with
       | none => (-1 : Int)
       | some v => (idxOf v (seenAfter vs seen) : Int))
  | [], _, i, h => absurd h (by simp)
  | none :: rest, seen, 0, _ => by
      simp [factorizeAux, seenAfter]
  | none :: rest, seen, (i+1), h => by
      simp only [factorizeAux, seenAfter, List.getD_cons_succ]
      exact factorizeAux_spec rest seen i (by simpa using h)
  | some v :: rest, seen, 0, _ => by
      by_cases hv : v ∈ seen
      · simp only [factorizeAux, seenAfter, hv, if_true, List.getD_cons_zero]
        rw [idxOf_seenAfter v rest seen hv]
      · simp only [factorizeAux, seenAfter, hv, if_false, List.getD_cons_zero]
        have hm : v ∈ seen ++ [v] := by simp
        rw [idxOf_seenAfter v rest (seen ++ [v]) hm, idxOf_append_self v seen hv]
  | some v :: rest, seen, (i+1), h => by
      by_cases hv : v ∈ seen
      · simp only [factorizeAux, seenAfter, hv, if_true, List.getD_cons_succ]
        exact factorizeAux_spec rest seen i (by simpa using h)
      · simp only [factorizeAux, seenAfter, hv, if_false, List.getD_cons_succ]
        exact factorizeAux_spec rest (seen ++ [v]) i (by simpa using h)

/-- `getD` through `map` at an in-range index. -/
theorem getD_map_lt {α β : Type} (f : α → β) (l : List α) (n : Nat)
    (hn : n < l.length) (d : β) (d2 : α) :
    (l.map f).getD n d = f (l.getD n d2) := by
  induction l generalizing n with
  | nil => exact absurd hn (by simp)
  | cons a t ih =>
    cases n with
    | zero => rfl
    | succ m => exact ih m (by simpa using hn)

/-- Cell-level description of `pd.factorize`: position `i` of the code
column is -1 for a missing value, and the first-seen index of the value
otherwise. -/
theorem factorizeCodes_spec (vs : List (Option String)) (i : Nat)
    (h : i < vs.length) :
    (factorizeCodes vs).getD i none =
      (match vs.getD i none with
       | none => some (-1 : ℚ)
       | some v => some ((idxOf v (firstSeenValues vs) : Int) : ℚ)) := by
  unfold factorizeCodes firstSeenValues
  rw [getD_map_lt (fun z => some ((Int.cast z : ℚ))) (factorizeAux vs []) i
    (by rw [factorizeAux_length]; exact h) none 0]
  rw [factorizeAux_spec vs [] i h]
  cases hv : vs.getD i none with
  | none => simp
  | some v => simp

/-! ## Column lookup utilities -/

/-- A column lookup succeeds exactly when the name is among the current
column names. -/
theorem lookupCol_isSome_iff (df : DataFrame) (t : String) :
    (lookupCol df t).isSome ↔ t ∈ dfColNames df := by
  unfold lookupCol dfColNames
  rw [List.find?_isSome]
  constructor
  · rintro ⟨c, hc, hp⟩
    have hn : c.name = t := by simpa using hp
    exact List.mem_map.mpr ⟨c, hc, hn⟩
  · intro ht
    obtain ⟨c, hc, hn⟩ := List.mem_map.mp ht
    exact ⟨c, hc, by simp [hn]⟩

/-- A successful lookup returns a column with the requested name. -/
theorem lookupCol_name (df : DataFrame) (t : String) (c : Column)
    (h : lookupCol df t = some c) : c.name = t := by
  have := List.find?_some h
  simpa using this

/-! ## Claim theorems -/

/-- Claim C10: in every session state the status report's results flag
equals its train flag, both are true exactly when a trained model is
present, and in particular the Evaluated stage is reported reached
immediately after any successful train call. -/
theorem status_results_equals_train :
    (∀ s : SessionState,
      (get_pipeline_status s).results = (get_pipeline_status s).train ∧
      ((get_pipeline_status s).results = true ↔ s.model.isSome)) ∧
    (∀ (s : SessionState) (req : TrainRequest) (fitRes : Except String Unit),
      (train_model s req fitRes).2 = .ok () →
      (get_pipeline_status (train_model s req fitRes).1).results = true) := by
  constructor
  · intro s
    exact ⟨rfl, Iff.rfl⟩
  · intro s req fitRes h
    unfold train_model at *
    revert h
    split
    · exact fun h => Except.noConfusion h
    · split
      · split
        · exact fun h => Except.noConfusion h
        · split
          · exact fun h => Except.noConfusion h
          · exact fun _ => rfl
      · exact fun h => Except.noConfusion h

/-- Witness for C10: a concrete successful train call after which the
results flag reads true without any evaluate call. -/
theorem status_results_equals_train_w :
    (get_pipeline_status
      (train_model s2def ⟨"logistic_regression"⟩ (.ok ())).1).results = true :=
  status_results_equals_train.2 s2def ⟨"logistic_regression"⟩ (.ok ()) (by decide)

/-- Claim C9: with no split in place a train call fails with a
precondition error and stores nothing, and with no trained model an
evaluate call fails with a precondition error and changes nothing. -/
theorem train_evaluate_preconditions :
    (∀ (s : SessionState) (req : TrainRequest) (fitRes : Except String Unit),
      s.X_train = none →
      (∃ msg, (train_model s req fitRes).2 = .error (.precondition msg)) ∧
      (train_model s req fitRes).1 = s) ∧
    (∀ (s : SessionState) (evalRes : Except String Unit),
      s.model = none →
      (∃ msg, (get_results s evalRes).2 = .error (.precondition msg)) ∧
      (get_results s evalRes).1 = s) := by
  constructor
  · intro s req fitRes hx
    unfold train_model
    rw [hx]
    exact ⟨⟨_, rfl⟩, rfl⟩
  · intro s evalRes hm
    unfold get_results
    rw [hm]
    exact ⟨⟨_, rfl⟩, rfl⟩

/-- Witness for C9 at the empty session. -/
theorem train_evaluate_preconditions_w :
    (∃ msg, (train_model initialState ⟨"decision_tree"⟩ (.ok ())).2 =
      .error (.precondition msg)) ∧
    (∃ msg, (get_results initialState (.ok ())).2 =
      .error (.precondition msg)) :=
  ⟨(train_evaluate_preconditions.1 initialState ⟨"decision_tree"⟩
      (.ok ()) rfl).1,
   (train_evaluate_preconditions.2 initialState (.ok ()) rfl).1⟩

/-- Claim C5: neither a preprocess call (on any path, success or
failure) nor a resetPreprocessing call changes any split field or the
trained model. -/
theorem preprocess_and_reset_keep_split_and_model :
    ∀ (s : SessionState) (req : PreprocessRequest)
      (fn : List (Option ℚ) → List (Option ℚ)),
    agreesOnSplitAndModel (preprocess_data s req fn).1 s ∧
    agreesOnSplitAndModel (reset_preprocessing s).1 s := by
  intro s req fn
  obtain ⟨_, a2, a3, a4, a5, a6, a7, a8, a9⟩ := preprocess_data_keeps s req fn
  obtain ⟨_, b2, b3, b4, b5, b6, b7, b8, b9⟩ := reset_preprocessing_keeps s
  exact ⟨⟨a2, a3, a4, a5, a6, a7, a8, a9⟩, ⟨b2, b3, b4, b5, b6, b7, b8, b9⟩⟩

/-- Whether a call renders its success response only before any session
write: true of describe, preprocess, resetPreprocessing, train, evaluate
and resetAll; false of upload and split, whose success responses are
rendered inside the `try` after their session writes. -/
def rendersBeforeWrites : OpCall → Prop
  | .upload _ _ _ => False
  | .split _ _ => False
  | _ => True

/-- Counterexample to claim C3: upload a table whose numeric target
column is entirely missing, then split on it.  The partition runs
unstratified and succeeds, the six split fields are written and the
model cleared (main.py lines 313-322), and only then does the response
render raise on `target_classes = [nan]` (json.dumps with
allow_nan=False), so the call returns an error while the session state
has changed. -/
theorem failed_split_mutates_state_cex :
    (∃ e, (split_data sm1 ⟨"t", mkRat 1 5, 42⟩ partM).2 = .error e) ∧
    (split_data sm1 ⟨"t", mkRat 1 5, 42⟩ partM).1 ≠ sm1 ∧
    sm1.X_train = none ∧
    (split_data sm1 ⟨"t", mkRat 1 5, 42⟩ partM).1.X_train = some xtrM ∧
    (split_data sm1 ⟨"t", mkRat 1 5, 42⟩ partM).1.target_column = some "t" := by
  refine ⟨⟨.operation
    "Error during split: Out of range float values are not JSON compliant",
    by decide⟩, ?_, by decide, by decide, by decide⟩
  decide

/-- Claim C3 as amended: a call failing before its session writes leaves
the entire session unchanged — describe, preprocess,
resetPreprocessing, train and evaluate can only fail that way; upload
and split can additionally fail while rendering the success response
after their writes, and then the session keeps exactly the written
values (the freshly stored dataset for upload; the freshly stored split
with the model cleared for split). -/
theorem failed_ops_leave_state_unchanged_amended :
    (∀ (s : SessionState) (c : OpCall) (e : ApiErr), rendersBeforeWrites c →
      (runOp s c).2 = .error e → (runOp s c).1 = s) ∧
    (∀ (s : SessionState) (filename : String)
       (parse : Except String DataFrame) (render : Except String Unit)
       (e : ApiErr),
      (upload_dataset s filename parse render).2 = .error e →
      ((upload_dataset s filename parse render).1 = s ∨
       ∃ df, parse = .ok df ∧
         (upload_dataset s filename parse render).1 = uploadWrittenState s df ∧
         ∃ msg, render = .error msg)) ∧
    (∀ (s : SessionState) (req : SplitRequest) (part : PartitionFn)
       (e : ApiErr),
      (split_data s req part).2 = .error e →
      ((split_data s req part).1 = s ∨
       ∃ df xtr xte ytr yte, s.processed_df = some df ∧
         hasMissing (targetColumnOf df req.target_column).vals = true ∧
         (split_data s req part).1 =
           splitWrittenState s req df xtr xte ytr yte)) := by
  refine ⟨?_, upload_dataset_err_cases, split_data_err_cases⟩
  intro s c e hpre h
  cases c with
  | upload filename parse render => exact hpre.elim
  | describe => exact get_dataset_err s e h
  | preprocess req fn => exact preprocess_data_err s req fn e h
  | resetPrep => exact reset_preprocessing_err s e h
  | split req part => exact hpre.elim
  | train req fitRes => exact train_model_err s req fitRes e h
  | evaluate evalRes => exact get_results_err s evalRes e h
  | resetAll => exact Except.noConfusion h

/-- Witness for the amended C3: a failing describe call leaves the empty
session unchanged, and the counterexample split resolves to the
written-state disjunct. -/
theorem failed_ops_leave_state_unchanged_amended_w :
    (runOp initialState .describe).1 = initialState ∧
    ((split_data sm1 ⟨"t", mkRat 1 5, 42⟩ partM).1 = sm1 ∨
     ∃ df xtr xte ytr yte, sm1.processed_df = some df ∧
       hasMissing (targetColumnOf df "t").vals = true ∧
       (split_data sm1 ⟨"t", mkRat 1 5, 42⟩ partM).1 =
         splitWrittenState sm1 ⟨"t", mkRat 1 5, 42⟩ df xtr xte ytr yte) :=
  ⟨failed_ops_leave_state_unchanged_amended.1 initialState .describe
      (.precondition "No dataset uploaded. Please upload a dataset first.")
      trivial rfl,
   failed_ops_leave_state_unchanged_amended.2.2 sm1 ⟨"t", mkRat 1 5, 42⟩ partM
      (.operation
        "Error during split: Out of range float values are not JSON compliant")
      (by decide)⟩

/-- Counterexample to claim C1: after upload → split → train, a further
successful upload leaves `target_column`, `feature_columns` and
`model_name` holding their stale values (main.py lines 143-148 clear
only the four split arrays and the model handle), so the claimed
post-state is not reached. -/
theorem upload_keeps_stale_metadata_cex :
    (upload_dataset s3def "data2.csv" (.ok df1) (.ok ())).2 = .ok () ∧
    (upload_dataset s3def "data2.csv" (.ok df1) (.ok ())).1.target_column =
      some "y" ∧
    (upload_dataset s3def "data2.csv" (.ok df1) (.ok ())).1.feature_columns =
      some ["x"] ∧
    (upload_dataset s3def "data2.csv" (.ok df1) (.ok ())).1.model_name =
      some "Logistic Regression" ∧
    ¬ claimC1Post (upload_dataset s3def "data2.csv" (.ok df1) (.ok ())).1 df1 := by
  refine ⟨by decide, by decide, by decide, by decide, ?_⟩
  unfold claimC1Post
  decide

/-- Claim C1 as amended: every successful upload stores the parsed table
in both dataset snapshots, empties the transformation log, and clears
the four split arrays and the model handle — while `target_column`,
`feature_columns` and `model_name` keep their previous values. -/
theorem upload_effects_amended :
    ∀ (s : SessionState) (filename : String)
      (parse : Except String DataFrame) (render : Except String Unit),
    (upload_dataset s filename parse render).2 = .ok () →
    ∃ df, parse = .ok df ∧
      (upload_dataset s filename parse render).1 =
        { s with
            original_df := some df
            processed_df := some df
            transformations_applied := []
            X_train := none
            X_test := none
            y_train := none
            y_test := none
            model := none } := by
  intro s filename parse render h
  unfold upload_dataset at *
  revert h
  split
  · exact fun h => Except.noConfusion h
  · split
    · exact fun h => Except.noConfusion h
    · split
      · exact fun h => Except.noConfusion h
      · split
        · exact fun h => Except.noConfusion h
        · split
          · exact fun h => Except.noConfusion h
          · exact fun _ => ⟨_, rfl, rfl⟩

/-- Witness for the amended C1 at a concrete upload. -/
theorem upload_effects_amended_w :
    ∃ df, (Except.ok df1 : Except String DataFrame) = .ok df ∧
      (upload_dataset initialState "data.csv" (.ok df1) (.ok ())).1 =
        { initialState with
            original_df := some df
            processed_df := some df
            transformations_applied := []
            X_train := none
            X_test := none
            y_train := none
            y_test := none
            model := none } :=
  upload_effects_amended initialState "data.csv" (.ok df1) (.ok ()) (by decide)

/-- Claim C2: in every reachable session state a stored model implies a
fully populated split, and the model was fitted on exactly the training
data of the split currently in place. -/
theorem trained_model_matches_current_split :
    ∀ (s : SessionState), Reachable s →
    ∀ m, s.model = some m →
    s.X_train = some m.fitX ∧ s.y_train = some m.fitY ∧
    s.X_test ≠ none ∧ s.y_test ≠ none ∧
    s.target_column ≠ none ∧ s.feature_columns ≠ none := by
  intro s hr m hm
  have hinv := sessionInv_reachable s hr
  have h2 := hinv.2 m hm
  have hx : s.X_train ≠ none := by
    rw [h2.1]
    exact fun c => Option.noConfusion c
  have h1 := hinv.1 hx
  exact ⟨h2.1, h2.2, h1.1, h1.2.2.1, h1.2.2.2.1, h1.2.2.2.2⟩

/-- Witness for C2 on the concrete reachable state after
upload → split → train. -/
theorem trained_model_matches_current_split_w :
    s3def.X_train = some xtr1 ∧ s3def.y_train = some ytr1 ∧
    s3def.X_test ≠ none ∧ s3def.y_test ≠ none ∧
    s3def.target_column ≠ none ∧ s3def.feature_columns ≠ none := by
  have h1 : Reachable s1def :=
    Relation.ReflTransGen.tail Relation.ReflTransGen.refl
      ⟨.upload "data.csv" (.ok df1) (.ok ()), rfl⟩
  have h2 : Reachable s2def :=
    Relation.ReflTransGen.tail h1
      ⟨.split ⟨"y", mkRat 1 5, 42⟩ partConst, rfl⟩
  have h3 : Reachable s3def :=
    Relation.ReflTransGen.tail h2
      ⟨.train ⟨"logistic_regression"⟩ (.ok ()), rfl⟩
  have hm : s3def.model = some ⟨"logistic_regression", xtr1, ytr1⟩ := by decide
  exact trained_model_matches_current_split s3def h3 _ hm

/-- Any sequence of preprocess calls leaves `original_df` untouched. -/
theorem applyCalls_preprocess_keeps_original :
    ∀ (cs : List OpCall) (s : SessionState) (d : DataFrame),
    s.original_df = some d →
    (∀ c ∈ cs, isPreprocessCall c) →
    (applyCalls s cs).original_df = some d := by
  intro cs
  induction cs with
  | nil =>
    intro s d hs _
    exact hs
  | cons c cr ih =>
    intro s d hs hc
    have hp := hc c (List.mem_cons_self c cr)
    cases c with
    | preprocess req fn =>
      have hstep : (preprocess_data s req fn).1.original_df = some d := by
        rw [(preprocess_data_keeps s req fn).1]
        exact hs
      exact ih (preprocess_data s req fn).1 d hstep
        (fun x hx => hc x (List.mem_cons_of_mem _ hx))
    | upload filename parse render => exact hp.elim
    | describe => exact hp.elim
    | resetPrep => exact hp.elim
    | split req part => exact hp.elim
    | train req fitRes => exact hp.elim
    | evaluate evalRes => exact hp.elim
    | resetAll => exact hp.elim

/-- Claim C4: with a dataset uploaded, after any sequence of preprocess
calls a resetPreprocessing call succeeds, restores the working dataset
to exactly the original upload, and empties the transformation log. -/
theorem reset_preprocessing_round_trip :
    ∀ (s : SessionState) (d : DataFrame) (cs : List OpCall),
    s.original_df = some d →
    (∀ c ∈ cs, isPreprocessCall c) →
    (reset_preprocessing (applyCalls s cs)).2 = .ok () ∧
    (reset_preprocessing (applyCalls s cs)).1.processed_df = some d ∧
    (reset_preprocessing (applyCalls s cs)).1.transformations_applied = [] := by
  intro s d cs hd hcs
  have horig := applyCalls_preprocess_keeps_original cs s d hd hcs
  unfold reset_preprocessing
  rw [horig]
  exact ⟨rfl, rfl, rfl⟩

/-- Witness for C4: reset after one concrete standardize call restores
the uploaded table. -/
theorem reset_preprocessing_round_trip_w :
    (reset_preprocessing (applyCalls s1def
      [.preprocess ⟨["x"], "standardize"⟩ (fun v => v)])).2 = .ok () ∧
    (reset_preprocessing (applyCalls s1def
      [.preprocess ⟨["x"], "standardize"⟩ (fun v => v)])).1.processed_df =
      some df1 ∧
    (reset_preprocessing (applyCalls s1def
      [.preprocess ⟨["x"], "standardize"⟩
        (fun v => v)])).1.transformations_applied = [] :=
  reset_preprocessing_round_trip s1def df1
    [.preprocess ⟨["x"], "standardize"⟩ (fun v => v)]
    (by decide)
    (by
      intro c hc
      rcases List.mem_singleton.mp hc with rfl
      trivial)

/-- Claim C7: with a working dataset present, a split call fails with a
ValidationError exactly when the target column is absent from the
current columns or the test fraction lies outside the closed interval
[0.1, 0.5]; a test fraction of 0.6 always fails this validation, while
exactly 0.1 and exactly 0.5 pass it. -/
theorem split_validation_iff :
    ∀ (s : SessionState) (df : DataFrame), s.processed_df = some df →
    (∀ (req : SplitRequest) (part : PartitionFn),
      (isValidationErr (split_data s req part).2 = true ↔
        (¬ req.target_column ∈ dfColNames df ∨
         ¬ (mkRat 1 10 ≤ req.test_size ∧ req.test_size ≤ mkRat 1 2)))) ∧
    (∀ (t : String) (seed : Int) (part : PartitionFn),
      isValidationErr (split_data s ⟨t, mkRat 6 10, seed⟩ part).2 = true) ∧
    (∀ (t : String) (seed : Int) (part : PartitionFn), t ∈ dfColNames df →
      isValidationErr (split_data s ⟨t, mkRat 1 10, seed⟩ part).2 = false) ∧
    (∀ (t : String) (seed : Int) (part : PartitionFn), t ∈ dfColNames df →
      isValidationErr (split_data s ⟨t, mkRat 5 10, seed⟩ part).2 = false) := by
  intro s df hdf
  have hiff : ∀ (req : SplitRequest) (part : PartitionFn),
      (isValidationErr (split_data s req part).2 = true ↔
        (¬ req.target_column ∈ dfColNames df ∨
         ¬ (mkRat 1 10 ≤ req.test_size ∧ req.test_size ≤ mkRat 1 2))) := by
    intro req part
    by_cases hval : (¬ req.target_column ∈ dfColNames df ∨
        ¬ (mkRat 1 10 ≤ req.test_size ∧ req.test_size ≤ mkRat 1 2))
    · constructor
      · intro _
        exact hval
      · intro _
        unfold split_data
        rw [hdf]
        dsimp only
        rcases hval with h1 | h2
        · rw [if_pos h1]
          rfl
        · by_cases h1 : req.target_column ∈ dfColNames df
          · rw [if_neg (not_not_intro h1), if_pos h2]
            rfl
          · rw [if_pos h1]
            rfl
    · push_neg at hval
      obtain ⟨h1, h2⟩ := hval
      constructor
      · intro htrue
        exfalso
        unfold split_data at htrue
        rw [hdf] at htrue
        dsimp only at htrue
        rw [if_neg (not_not_intro h1), if_neg (not_not_intro h2)] at htrue
        revert htrue
        split
        · intro htrue
          exact absurd htrue (by simp [isValidationErr])
        · split
          · intro htrue
            exact absurd htrue (by simp [isValidationErr])
          · intro htrue
            exact absurd htrue (by simp [isValidationErr])
      · intro hor
        exfalso
        rcases hor with hc | hc
        · exact hc h1
        · exact hc h2
  refine ⟨hiff, ?_, ?_, ?_⟩
  · intro t seed part
    rw [hiff ⟨t, mkRat 6 10, seed⟩ part]
    right
    intro hc
    exact absurd hc.2 (show ¬ mkRat 6 10 ≤ mkRat 1 2 by decide)
  · intro t seed part ht
    cases hb : isValidationErr (split_data s ⟨t, mkRat 1 10, seed⟩ part).2 with
    | false => rfl
    | true =>
      rcases (hiff ⟨t, mkRat 1 10, seed⟩ part).mp hb with hc | hc
      · exact absurd ht hc
      · exact (hc ⟨(show mkRat 1 10 ≤ mkRat 1 10 by decide),
          (show mkRat 1 10 ≤ mkRat 1 2 by decide)⟩).elim
  · intro t seed part ht
    cases hb : isValidationErr (split_data s ⟨t, mkRat 5 10, seed⟩ part).2 with
    | false => rfl
    | true =>
      rcases (hiff ⟨t, mkRat 5 10, seed⟩ part).mp hb with hc | hc
      · exact absurd ht hc
      · exact (hc ⟨(show mkRat 1 10 ≤ mkRat 5 10 by decide),
          (show mkRat 5 10 ≤ mkRat 1 2 by decide)⟩).elim

/-- Witness for C7 on a concrete uploaded session. -/
theorem split_validation_iff_w :
    isValidationErr (split_data s1def ⟨"y", mkRat 6 10, 42⟩ partConst).2 = true ∧
    isValidationErr (split_data s1def ⟨"y", mkRat 1 10, 42⟩ partConst).2 = false ∧
    isValidationErr (split_data s1def ⟨"y", mkRat 5 10, 42⟩ partConst).2 = false :=
  ⟨(split_validation_iff s1def df1 (by decide)).2.1 "y" 42 partConst,
   (split_validation_iff s1def df1 (by decide)).2.2.1 "y" 42 partConst (by decide),
   (split_validation_iff s1def df1 (by decide)).2.2.2 "y" 42 partConst (by decide)⟩

/-- Counterexample to claim C8: with the empty column selection every
requested column is vacuously present and numeric and the method is
valid, yet the call fails — `scaler.fit_transform(df[[]])` raises
sklearn's "Found array with 0 feature(s)" inside the try/except of
main.py lines 220-249, the endpoint returns a 400, and nothing is
appended to the transformation log. -/
theorem preprocess_empty_selection_cex :
    (∀ c ∈ (⟨[], "standardize"⟩ : PreprocessRequest).columns,
      ∃ col, lookupCol df1 c = some col ∧ isNumericVals col.vals = true) ∧
    (⟨[], "standardize"⟩ : PreprocessRequest).method = "standardize" ∧
    (∃ e, (preprocess_data s1def ⟨[], "standardize"⟩ (fun v => v)).2 =
      .error e) ∧
    ¬ (preprocess_data s1def ⟨[], "standardize"⟩ (fun v => v)).2 = .ok () ∧
    (preprocess_data s1def
      ⟨[], "standardize"⟩ (fun v => v)).1.transformations_applied =
      s1def.transformations_applied := by
  refine ⟨?_, rfl, ⟨.operation
    "Error during preprocessing: Found array with 0 feature(s) while a minimum of 1 is required.",
    by decide⟩, by decide, by decide⟩
  intro c hc
  exact absurd hc (List.not_mem_nil c)

/-- Claim C8 as amended: with a working dataset present, a preprocess
call fails with a ValidationError whenever some requested column is
absent or some requested column is non-numeric; when the requested
column list is non-empty and every requested column is present and
numeric and the method is standardize or normalize, the call succeeds
and appends exactly one description of the applied transform to the
transformation log (an empty selection instead fails with an
OperationError from the scaler, appending nothing). -/
theorem preprocess_validation_and_append_amended :
    ∀ (s : SessionState) (df : DataFrame) (req : PreprocessRequest)
      (fn : List (Option ℚ) → List (Option ℚ)),
    s.processed_df = some df →
    (((∃ c ∈ req.columns, ¬ c ∈ dfColNames df) ∨
      (∃ c ∈ req.columns, ∃ col, lookupCol df c = some col ∧
        isNumericVals col.vals = false)) →
      ∃ msg, (preprocess_data s req fn).2 = .error (.validation msg)) ∧
    (req.columns ≠ [] →
      (∀ c ∈ req.columns, ∃ col, lookupCol df c = some col ∧
        isNumericVals col.vals = true) →
      (req.method = "standardize" ∨ req.method = "normalize") →
      (preprocess_data s req fn).2 = .ok () ∧
      (preprocess_data s req fn).1.transformations_applied =
        s.transformations_applied ++ [preprocessMsg req]) := by
  intro s df req fn hdf
  constructor
  · intro hbad
    unfold preprocess_data
    rw [hdf]
    dsimp only
    by_cases hi : invalidColumns df req.columns = []
    · rw [if_neg (not_not_intro hi)]
      have hnn : nonNumericColumns df req.columns ≠ [] := by
        rcases hbad with ⟨c, hc, habs⟩ | ⟨c, hc, col, hcol, hnum⟩
        · exfalso
          have hmem := (List.filter_eq_nil_iff.mp hi) c hc
          simp only [invalidColumns] at hmem
          simp at hmem
          exact habs hmem
        · intro hcontra
          have hpred := (List.filter_eq_nil_iff.mp hcontra) c hc
          rw [hcol] at hpred
          simp at hpred
          rw [hpred] at hnum
          exact Bool.noConfusion hnum
      rw [if_pos hnn]
      exact ⟨_, rfl⟩
    · rw [if_pos hi]
      exact ⟨_, rfl⟩
  · intro hne hall hmethod
    have hi : invalidColumns df req.columns = [] := by
      unfold invalidColumns
      rw [List.filter_eq_nil_iff]
      intro c hc
      obtain ⟨col, hcol, _⟩ := hall c hc
      have hmemb : c ∈ dfColNames df :=
        (lookupCol_isSome_iff df c).mp (by rw [hcol]; rfl)
      simp [hmemb]
    have hnn : nonNumericColumns df req.columns = [] := by
      unfold nonNumericColumns
      rw [List.filter_eq_nil_iff]
      intro c hc
      obtain ⟨col, hcol, hnum⟩ := hall c hc
      rw [hcol]
      simp [hnum]
    unfold preprocess_data
    rw [hdf]
    dsimp only
    rw [if_neg (not_not_intro hi), if_neg (not_not_intro hnn)]
    have hm : (req.method = "standardize" || req.method = "normalize") = true := by
      rcases hmethod with h | h <;> simp [h]
    rw [if_pos hm, if_neg hne]
    exact ⟨rfl, rfl⟩

/-- Witness for the amended C8: a concrete absent-column failure and a
concrete successful standardize call on the uploaded session. -/
theorem preprocess_validation_and_append_amended_w :
    (∃ msg, (preprocess_data s1def ⟨["z"], "standardize"⟩ (fun v => v)).2 =
      .error (.validation msg)) ∧
    ((preprocess_data s1def ⟨["x"], "standardize"⟩ (fun v => v)).2 = .ok () ∧
     (preprocess_data s1def
        ⟨["x"], "standardize"⟩ (fun v => v)).1.transformations_applied =
       s1def.transformations_applied ++
         [preprocessMsg ⟨["x"], "standardize"⟩]) := by
  constructor
  · exact (preprocess_validation_and_append_amended s1def df1
      ⟨["z"], "standardize"⟩ (fun v => v) (by decide)).1
      (Or.inl ⟨"z", by decide, by decide⟩)
  · refine (preprocess_validation_and_append_amended s1def df1
      ⟨["x"], "standardize"⟩ (fun v => v) (by decide)).2
      (by decide) ?_ (Or.inl rfl)
    intro c hc
    rcases List.mem_singleton.mp hc with rfl
    exact ⟨⟨"x", .numeric [some 1, some 2, some 3, some 4]⟩, by decide, rfl⟩

/-- Counterexample to claim C6: a bool feature column is non-numeric
under the program's own numeric test (`np.issubdtype(dtype, np.number)`
is false for bool, the very test preprocess uses at main.py line 212),
yet the split encoder at main.py line 301 only factorizes columns of
object dtype, so the bool column passes through unconverted and the
claimed encoding does not hold. -/
theorem encode_claim_fails_on_bool_cex :
    isNumericVals (ColVals.boolcol [true, false]) = false ∧
    encodeFeatures ⟨[⟨"flag", .boolcol [true, false]⟩]⟩ =
      ⟨[⟨"flag", .boolcol [true, false]⟩]⟩ ∧
    ¬ claimC6Statement ⟨[⟨"flag", .boolcol [true, false]⟩]⟩ := by
  refine ⟨rfl, rfl, ?_⟩
  unfold claimC6Statement
  decide

/-- Claim C6 as amended: in the feature table handed to the partition,
object (string) columns are factorized — each non-missing value becomes
the index of its first occurrence among the column's distinct
non-missing values, missing values become -1 — independently per
column, while numeric and bool feature columns pass through
unchanged. -/
theorem encode_features_object_factorized :
    (∀ (X : DataFrame) (t : String),
      splitFeatureTable X t = encodeFeatures (dropColumn X t)) ∧
    (∀ (X : DataFrame), (encodeFeatures X).cols = X.cols.map encodeColumn) ∧
    (∀ (name : String) (v : List (Option ℚ)),
      encodeColumn ⟨name, .numeric v⟩ = ⟨name, .numeric v⟩) ∧
    (∀ (name : String) (b : List Bool),
      encodeColumn ⟨name, .boolcol b⟩ = ⟨name, .boolcol b⟩) ∧
    (∀ (name : String) (vs : List (Option String)),
      encodeColumn ⟨name, .objcol vs⟩ = ⟨name, .numeric (factorizeCodes vs)⟩) ∧
    (∀ (vs : List (Option String)), (factorizeCodes vs).length = vs.length) ∧
    (∀ (vs : List (Option String)) (i : Nat), i < vs.length →
      (factorizeCodes vs).getD i none =
        (match vs.getD i none with
         | none => some (-1 : ℚ)
         | some v => some (Int.cast (idxOf v (firstSeenValues vs) : Int)))) := by
  refine ⟨fun X t => rfl, fun X => rfl, fun n v => rfl, fun n b => rfl,
    fun n vs => rfl, ?_, factorizeCodes_spec⟩
  intro vs
  unfold factorizeCodes
  rw [List.length_map, factorizeAux_length]

/-- Witness for the amended C6: the fourth cell of the example column
codes back to the first-seen index of its value. -/
theorem encode_features_object_factorized_w :
    (factorizeCodes [some "b", none, some "a", some "b"]).getD 3 none =
      some 0 := by
  have h := encode_features_object_factorized.2.2.2.2.2.2
    [some "b", none, some "a", some "b"] 3 (by decide)
  rw [h]
  decide
